import Mathlib

/-!
Verification development for the PayPal billing-agreement client
(`index.js`, class `PayPalBillingAgreementService`).

The service is embedded shallowly: the mutable class fields `config` and
`authInstance` become an explicit `ServiceState`, each operation takes the
outcomes of the HTTP calls it may perform as oracle arguments, and returns
the thrown-or-returned value, the updated state, and the list of HTTP
requests actually issued (in order).  JavaScript runtime behaviour that the
source relies on is modelled explicitly: property access on `undefined` or
`null` throws a TypeError, absent object fields read as `undefined`,
falsiness of `undefined` / `null` / the empty string, and axios rejecting
on transport errors and non-2xx statuses.  Thrown errors are represented by
their message strings, since the source wraps errors by interpolating
`error.message`.
-/

namespace PayPalAgreements

/-- A JavaScript value as delivered by the JSON HTTP layer. -/
inductive JsValue where
  | undefined : JsValue
  | null : JsValue
  | str : String → JsValue
  | obj : List (String × JsValue) → JsValue
  | arr : List JsValue → JsValue

/-- JS property read `v.k`: reading a property of `undefined` or `null`
throws a TypeError; an absent field of an object reads as `undefined`;
other primitives have no such fields, so the read yields `undefined`.
(The TypeError message is modelled without the quote characters that the
runtime prints around the property name.) -/
def JsValue.get : JsValue → String → Except String JsValue
  | .undefined, k => .error ("Cannot read properties of undefined (reading " ++ k ++ ")")
  | .null, k => .error ("Cannot read properties of null (reading " ++ k ++ ")")
  | .obj fs, k => .ok ((fs.lookup k).getD .undefined)
  | _, _ => .ok .undefined

/-- JS truthiness for the values in play: `undefined`, `null` and `""` are
falsy; objects, arrays and non-empty strings are truthy. -/
def JsValue.truthy : JsValue → Bool
  | .undefined => false
  | .null => false
  | .str s => !s.isEmpty
  | .obj _ => true
  | .arr _ => true

/-- JS string conversion as performed by a template literal, used by the
source in `Bearer ${data.access_token}`.  (Array conversion is abstracted
to the empty string; no claim exercises it.) -/
def JsValue.toTemplateString : JsValue → String
  | .undefined => "undefined"
  | .null => "null"
  | .str s => s
  | .obj _ => "[object Object]"
  | .arr _ => ""

/-- The callback `(link) => link.rel === "approval_url"` used with
`Array.prototype.find`: strict equality against a string literal holds
exactly for that very string. -/
def relIsApprovalUrl : JsValue → Except String Bool
  | .undefined => .error ("Cannot read properties of undefined (reading rel)")
  | .null => .error ("Cannot read properties of null (reading rel)")
  | .obj fs =>
    .ok (match fs.lookup "rel" with
      | some (.str s) => s == "approval_url"
      | _ => false)
  | _ => .ok false

/-- `Array.prototype.find` with the approval-url callback; yields the first
matching element, or `undefined` when none matches. -/
def findRelApprovalUrl : List JsValue → Except String JsValue
  | [] => .ok .undefined
  | e :: rest =>
    match relIsApprovalUrl e with
    | .error m => .error m
    | .ok true => .ok e
    | .ok false => findRelApprovalUrl rest

/-- `data.links.find(...)`: calling `.find` on a non-array value throws a
TypeError. -/
def findApprovalLink : JsValue → Except String JsValue
  | .arr l => findRelApprovalUrl l
  | .undefined => .error ("Cannot read properties of undefined (reading find)")
  | .null => .error ("Cannot read properties of null (reading find)")
  | _ => .error ("data.links.find is not a function")

/-- Outcome of one outbound HTTP POST, supplied as an oracle: either the
transport fails, or the server answers with a status code and a JSON
body. -/
inductive HttpOutcome where
  | transportError : String → HttpOutcome
  | response : Nat → JsValue → HttpOutcome

/-- axios resolves a request with the response body on a 2xx status, and
rejects (throws) on transport errors and on non-2xx statuses. -/
def axiosResult : HttpOutcome → Except String JsValue
  | .transportError m => .error m
  | .response status body =>
    if 200 ≤ status ∧ status < 300 then .ok body
    else .error ("Request failed with status code " ++ toString status)

/-- The static `config` field set by `configure`. -/
structure Config where
  BASE_URL : String
  CLIENT_ID : String
  SECRET : String

/-- The cached axios instance built by `getAuthInstance` (base URL plus the
default headers attached to every subsequent request). -/
structure AuthInstance where
  baseURL : String
  authorizationHeader : String
  contentTypeHeader : String

/-- The class-level mutable state of `PayPalBillingAgreementService`. -/
structure ServiceState where
  config : Option Config
  authInstance : Option AuthInstance

/-- One outbound HTTP POST as issued by the service: target split into base
URL and path, the Authorization header used, and the request body. -/
structure Request where
  baseURL : String
  path : String
  authorizationHeader : String
  body : JsValue

/-- `configure(clientId, secret, sandbox = true)`: stores a fresh config.
The source assigns only `this.config`; the cached `authInstance` field is
left untouched. -/
def configure (st : ServiceState) (clientId secret : String) (sandbox : Bool) :
    ServiceState :=
  { st with
    config := some {
      BASE_URL := if sandbox then "https://api-m.sandbox.paypal.com"
                  else "https://api-m.paypal.com",
      CLIENT_ID := clientId,
      SECRET := secret } }

/-- Message of the error thrown when operations run before `configure`. -/
def notConfiguredMessage : String :=
  "PayPal configuration not initialized. Call configure() first."

/-- The client-credentials token-exchange request issued by
`getAuthInstance` (HTTP Basic credentials shown unencoded). -/
def tokenRequest (c : Config) : Request :=
  { baseURL := c.BASE_URL,
    path := "/v1/oauth2/token",
    authorizationHeader := "Basic " ++ c.CLIENT_ID ++ ":" ++ c.SECRET,
    body := .str "grant_type=client_credentials" }

/-- `getAuthInstance()`: throws if not configured; returns the cached
instance when present; otherwise performs the token exchange, builds an
axios instance with a Bearer header from `data.access_token`, caches and
returns it.  Any error inside the try block is wrapped as
`Authentication failed: ...`. -/
def getAuthInstance (st : ServiceState) (net : HttpOutcome) :
    Except String AuthInstance × ServiceState × List Request :=
  match st.config with
  | none => (.error notConfiguredMessage, st, [])
  | some c =>
    match st.authInstance with
    | some a => (.ok a, st, [])
    | none =>
      match axiosResult net with
      | .error m => (.error ("Authentication failed: " ++ m), st, [tokenRequest c])
      | .ok data =>
        match data.get "access_token" with
        | .error m => (.error ("Authentication failed: " ++ m), st, [tokenRequest c])
        | .ok tok =>
          let a : AuthInstance :=
            { baseURL := c.BASE_URL,
              authorizationHeader := "Bearer " ++ tok.toTemplateString,
              contentTypeHeader := "application/json" }
          (.ok a, { st with authInstance := some a }, [tokenRequest c])

/-- `instance.post(path, body)`: the request issued through a cached axios
instance, carrying its base URL and default headers. -/
def instancePost (a : AuthInstance) (path : String) (body : JsValue) : Request :=
  { baseURL := a.baseURL,
    path := path,
    authorizationHeader := a.authorizationHeader,
    body := body }

/-- The request body sent by `createBillingAgreementToken` (the
time-dependent `start_date` is passed in as the already-formatted
timestamp string the source computes from `Date.now() + 60000`). -/
def agreementTokenPayload (startDate returnUrl cancelUrl : String) : JsValue :=
  .obj [
    ("name", .str "Post Payment Profile"),
    ("description", .str "Flexible Payment Agreement"),
    ("start_date", .str startDate),
    ("payer", .obj [("payment_method", .str "PAYPAL")]),
    ("plan", .obj [
      ("type", .str "MERCHANT_INITIATED_BILLING"),
      ("merchant_preferences", .obj [
        ("return_url", .str returnUrl),
        ("cancel_url", .str cancelUrl),
        ("accepted_pymt_type", .str "ANY"),
        ("setup_fee", .obj [
          ("value", .str "0.00"),
          ("currency_code", .str "USD")])])])]

/-- `createBillingAgreementToken(returnUrl, cancelUrl)`: obtains the auth
instance, posts the agreement-token payload, scans `data.links` for the
link with `rel === "approval_url"`, and returns its `href`; throws
`Approval URL not found` when `find` yields a falsy value.  Every error in
the try block is wrapped as
`Failed to create billing agreement token: ...`. -/
def createBillingAgreementToken (st : ServiceState)
    (returnUrl cancelUrl startDate : String) (authNet reqNet : HttpOutcome) :
    Except String JsValue × ServiceState × List Request :=
  match getAuthInstance st authNet with
  | (.error m, st1, tr) =>
      (.error ("Failed to create billing agreement token: " ++ m), st1, tr)
  | (.ok inst, st1, tr) =>
    let req := instancePost inst "/v1/billing-agreements/agreement-tokens"
      (agreementTokenPayload startDate returnUrl cancelUrl)
    let tr1 := tr ++ [req]
    match axiosResult reqNet with
    | .error m =>
        (.error ("Failed to create billing agreement token: " ++ m), st1, tr1)
    | .ok data =>
      match data.get "links" with
      | .error m =>
          (.error ("Failed to create billing agreement token: " ++ m), st1, tr1)
      | .ok links =>
        match findApprovalLink links with
        | .error m =>
            (.error ("Failed to create billing agreement token: " ++ m), st1, tr1)
        | .ok approvalUrl =>
          if !approvalUrl.truthy then
            (.error ("Failed to create billing agreement token: " ++
              "Approval URL not found"), st1, tr1)
          else
            match approvalUrl.get "href" with
            | .error m =>
                (.error ("Failed to create billing agreement token: " ++ m),
                  st1, tr1)
            | .ok href => (.ok href, st1, tr1)

/-- `executeBillingAgreement(token)`: obtains the auth instance, posts
`{token_id: token}`, throws `Billing Agreement ID not found` when
`data.id` is falsy, and otherwise returns
`{id: data.id, payer_id: data.payer.payer_info.payer_id}` — the payer
chain read unguarded.  Every error in the try block is wrapped as
`Failed to execute billing agreement: ...`. -/
def executeBillingAgreement (st : ServiceState) (token : String)
    (authNet reqNet : HttpOutcome) :
    Except String JsValue × ServiceState × List Request :=
  match getAuthInstance st authNet with
  | (.error m, st1, tr) =>
      (.error ("Failed to execute billing agreement: " ++ m), st1, tr)
  | (.ok inst, st1, tr) =>
    let req := instancePost inst "/v1/billing-agreements/agreements"
      (.obj [("token_id", .str token)])
    let tr1 := tr ++ [req]
    match axiosResult reqNet with
    | .error m =>
        (.error ("Failed to execute billing agreement: " ++ m), st1, tr1)
    | .ok data =>
      match data.get "id" with
      | .error m =>
          (.error ("Failed to execute billing agreement: " ++ m), st1, tr1)
      | .ok idv =>
        if !idv.truthy then
          (.error ("Failed to execute billing agreement: " ++
            "Billing Agreement ID not found"), st1, tr1)
        else
          match data.get "payer" with
          | .error m =>
              (.error ("Failed to execute billing agreement: " ++ m), st1, tr1)
          | .ok payer =>
            match payer.get "payer_info" with
            | .error m =>
                (.error ("Failed to execute billing agreement: " ++ m), st1, tr1)
            | .ok pinfo =>
              match pinfo.get "payer_id" with
              | .error m =>
                  (.error ("Failed to execute billing agreement: " ++ m),
                    st1, tr1)
              | .ok pid =>
                  (.ok (.obj [("id", idv), ("payer_id", pid)]), st1, tr1)

/-- The body of the vault payment-token request (step 1 of the charge). -/
def vaultPayload (agreementId : String) : JsValue :=
  .obj [("payment_source", .obj [("token", .obj [
    ("type", .str "BILLING_AGREEMENT"),
    ("id", .str agreementId)])])]

/-- The body of the order-creation request (step 2 of the charge). -/
def orderPayload (currency amount : String) (paymentToken : JsValue) : JsValue :=
  .obj [
    ("intent", .str "CAPTURE"),
    ("purchase_units", .arr [
      .obj [
        ("amount", .obj [
          ("currency_code", .str currency),
          ("value", .str amount)]),
        ("description", .str "Charge amount at delivery")]]),
    ("payment_source", .obj [("token", .obj [
      ("id", paymentToken),
      ("type", .str "PAYMENT_METHOD_TOKEN")])])]

/-- `chargeCustomer(payerId, agreementId, amount, currency = "USD")`:
obtains the auth instance, mints a payment token from the billing
agreement (throws `Payment token not returned` when the response `id` is
falsy), then creates a CAPTURE order against that token (throws
`Order ID not found` when the order `id` is falsy) and returns the full
order body.  The `payerId` parameter is accepted but never read.  Every
error in the try block is wrapped as `Payment failed: ...`. -/
def chargeCustomer (st : ServiceState)
    (payerId agreementId amount currency : String)
    (authNet vaultNet orderNet : HttpOutcome) :
    Except String JsValue × ServiceState × List Request :=
  match getAuthInstance st authNet with
  | (.error m, st1, tr) => (.error ("Payment failed: " ++ m), st1, tr)
  | (.ok inst, st1, tr) =>
    let vaultReq := instancePost inst "/v3/vault/payment-tokens"
      (vaultPayload agreementId)
    let tr1 := tr ++ [vaultReq]
    match axiosResult vaultNet with
    | .error m => (.error ("Payment failed: " ++ m), st1, tr1)
    | .ok vaultData =>
      match vaultData.get "id" with
      | .error m => (.error ("Payment failed: " ++ m), st1, tr1)
      | .ok paymentToken =>
        if !paymentToken.truthy then
          (.error ("Payment failed: " ++ "Payment token not returned"), st1, tr1)
        else
          let orderReq := instancePost inst "/v2/checkout/orders"
            (orderPayload currency amount paymentToken)
          let tr2 := tr1 ++ [orderReq]
          match axiosResult orderNet with
          | .error m => (.error ("Payment failed: " ++ m), st1, tr2)
          | .ok orderData =>
            match orderData.get "id" with
            | .error m => (.error ("Payment failed: " ++ m), st1, tr2)
            | .ok oid =>
              if !oid.truthy then
                (.error ("Payment failed: " ++ "Order ID not found"), st1, tr2)
              else (.ok orderData, st1, tr2)

/-! ### Sample values for concrete witnesses and counterexamples -/

/-- The sandbox base URL selected by `configure` when `sandbox` is true. -/
def sandboxURL : String := "https://api-m.sandbox.paypal.com"

/-- A sample configuration. -/
def sampleConfig : Config :=
  { BASE_URL := sandboxURL, CLIENT_ID := "cid", SECRET := "csec" }

/-- A sample cached auth instance. -/
def sampleAuth : AuthInstance :=
  { baseURL := sandboxURL,
    authorizationHeader := "Bearer TOKEN",
    contentTypeHeader := "application/json" }

/-! ### Claims -/

/-- Claim C1, counterexample: in a state that is configured and holds a
cached AuthSession, `configure` with fresh credentials leaves the cached
session in place, and the next `getAuthInstance` performs no HTTP request
at all (empty request list) and returns the stale cached session — so a
reconfigure does not force a fresh token exchange, contrary to the
claim. -/
theorem C1_counterexample :
    (configure ⟨some sampleConfig, some sampleAuth⟩ "newId" "newSecret" true).authInstance
      = some sampleAuth ∧
    getAuthInstance (configure ⟨some sampleConfig, some sampleAuth⟩ "newId" "newSecret" true)
        (HttpOutcome.transportError "network unreachable")
      = (.ok sampleAuth,
         configure ⟨some sampleConfig, some sampleAuth⟩ "newId" "newSecret" true,
         []) :=
  ⟨rfl, rfl⟩

/-- Claim C1 (amended): `configure` replaces the stored configuration but
does not invalidate a previously cached AuthSession; the first
`getAuthInstance` after a reconfigure returns the previously cached
session unchanged and performs no token exchange. -/
theorem C1_configure_keeps_cached_session (st : ServiceState)
    (clientId secret : String) (sandbox : Bool) (a : AuthInstance)
    (net : HttpOutcome) (h : st.authInstance = some a) :
    (configure st clientId secret sandbox).authInstance = some a ∧
    getAuthInstance (configure st clientId secret sandbox) net =
      (.ok a, configure st clientId secret sandbox, []) := by
  constructor
  · simpa [configure] using h
  · simp [getAuthInstance, configure, h]

/-- Witness for C1 (amended) at a concrete cached state. -/
theorem C1_configure_keeps_cached_session_witness :
    (configure ⟨some sampleConfig, some sampleAuth⟩ "n" "s" false).authInstance
      = some sampleAuth ∧
    getAuthInstance (configure ⟨some sampleConfig, some sampleAuth⟩ "n" "s" false)
        (HttpOutcome.transportError "down")
      = (.ok sampleAuth,
         configure ⟨some sampleConfig, some sampleAuth⟩ "n" "s" false,
         []) :=
  C1_configure_keeps_cached_session ⟨some sampleConfig, some sampleAuth⟩
    "n" "s" false sampleAuth (HttpOutcome.transportError "down") rfl

/-- Claim C2: from a configured state with an empty cache, a first
`getAuthSession` whose token exchange succeeds issues exactly the one
token-exchange request and caches the session built from `access_token`;
a second call (any network oracle) issues no request and returns the very
same session. -/
theorem C2_second_call_is_cache_hit (c : Config) (net1 net2 : HttpOutcome)
    (body tok : JsValue)
    (h1 : axiosResult net1 = .ok body)
    (h2 : body.get "access_token" = .ok tok) :
    getAuthInstance ⟨some c, none⟩ net1 =
      (.ok ⟨c.BASE_URL, "Bearer " ++ tok.toTemplateString, "application/json"⟩,
       ⟨some c, some ⟨c.BASE_URL, "Bearer " ++ tok.toTemplateString, "application/json"⟩⟩,
       [tokenRequest c]) ∧
    getAuthInstance
        ⟨some c, some ⟨c.BASE_URL, "Bearer " ++ tok.toTemplateString, "application/json"⟩⟩
        net2 =
      (.ok ⟨c.BASE_URL, "Bearer " ++ tok.toTemplateString, "application/json"⟩,
       ⟨some c, some ⟨c.BASE_URL, "Bearer " ++ tok.toTemplateString, "application/json"⟩⟩,
       []) := by
  constructor
  · simp [getAuthInstance, h1, h2]
  · simp [getAuthInstance]

/-- Witness for C2 at a concrete 200 response carrying an access token. -/
theorem C2_second_call_is_cache_hit_witness :
    getAuthInstance ⟨some sampleConfig, none⟩
        (HttpOutcome.response 200 (.obj [("access_token", .str "TOKEN")])) =
      (.ok ⟨sampleConfig.BASE_URL,
            "Bearer " ++ (JsValue.str "TOKEN").toTemplateString,
            "application/json"⟩,
       ⟨some sampleConfig,
        some ⟨sampleConfig.BASE_URL,
              "Bearer " ++ (JsValue.str "TOKEN").toTemplateString,
              "application/json"⟩⟩,
       [tokenRequest sampleConfig]) ∧
    getAuthInstance
        ⟨some sampleConfig,
         some ⟨sampleConfig.BASE_URL,
               "Bearer " ++ (JsValue.str "TOKEN").toTemplateString,
               "application/json"⟩⟩
        (HttpOutcome.transportError "down") =
      (.ok ⟨sampleConfig.BASE_URL,
            "Bearer " ++ (JsValue.str "TOKEN").toTemplateString,
            "application/json"⟩,
       ⟨some sampleConfig,
        some ⟨sampleConfig.BASE_URL,
              "Bearer " ++ (JsValue.str "TOKEN").toTemplateString,
              "application/json"⟩⟩,
       []) :=
  C2_second_call_is_cache_hit sampleConfig
    (HttpOutcome.response 200 (.obj [("access_token", .str "TOKEN")]))
    (HttpOutcome.transportError "down")
    (.obj [("access_token", .str "TOKEN")]) (.str "TOKEN") rfl rfl

/-- A 2xx status resolves with the body. -/
theorem axiosResult_200 (body : JsValue) :
    axiosResult (.response 200 body) = .ok body := rfl

/-- Claim C3, evaluation at the failing input: from a configured state with
an empty cache, a 200 token-endpoint response whose body has no
`access_token` field does not yield an AuthenticationFailed error — the
code builds, caches and returns an AuthInstance whose Authorization header
is the literal string `Bearer undefined`. -/
theorem C3_missing_access_token_is_cached :
    getAuthInstance ⟨some sampleConfig, none⟩
        (HttpOutcome.response 200 (.obj [])) =
      (.ok ⟨sandboxURL, "Bearer undefined", "application/json"⟩,
       ⟨some sampleConfig,
        some ⟨sandboxURL, "Bearer undefined", "application/json"⟩⟩,
       [tokenRequest sampleConfig]) := by
  simp [getAuthInstance, axiosResult_200, JsValue.get, JsValue.toTemplateString,
    sampleConfig, sandboxURL]

/-- The approval-url `find` yields the first element whose `rel` is
strictly equal to `"approval_url"`, skipping a prefix of non-matching
elements. -/
theorem findRelApprovalUrl_first_match (l1 : List JsValue) (e : JsValue)
    (l2 : List JsValue)
    (h1 : ∀ x ∈ l1, relIsApprovalUrl x = .ok false)
    (he : relIsApprovalUrl e = .ok true) :
    findRelApprovalUrl (l1 ++ e :: l2) = .ok e := by
  induction l1 with
  | nil => simp [findRelApprovalUrl, he]
  | cons x xs ih =>
    have hx := h1 x (by simp)
    simp only [List.cons_append, findRelApprovalUrl, hx]
    exact ih (fun y hy => h1 y (by simp [hy]))

/-- The approval-url `find` yields `undefined` when no element matches. -/
theorem findRelApprovalUrl_no_match (l : List JsValue)
    (h : ∀ x ∈ l, relIsApprovalUrl x = .ok false) :
    findRelApprovalUrl l = .ok .undefined := by
  induction l with
  | nil => rfl
  | cons x xs ih =>
    have hx := h x (by simp)
    simp only [findRelApprovalUrl, hx]
    exact ih (fun y hy => h y (by simp [hy]))

/-- Claim C4, counterexample: with a cached session, a 200 response whose
body has no `links` field at all makes `createBillingAgreementToken` fail
with a wrapped TypeError from `data.links.find`, whose message is not the
`Approval URL not found` message the claim requires. -/
theorem C4_counterexample :
    createBillingAgreementToken ⟨some sampleConfig, some sampleAuth⟩
        "https://x/ok" "https://x/cancel" "2026-01-01T00:00:00Z"
        (HttpOutcome.transportError "unused")
        (HttpOutcome.response 200 (.obj [])) =
      (.error ("Failed to create billing agreement token: " ++
         "Cannot read properties of undefined (reading find)"),
       ⟨some sampleConfig, some sampleAuth⟩,
       [instancePost sampleAuth "/v1/billing-agreements/agreement-tokens"
         (agreementTokenPayload "2026-01-01T00:00:00Z"
           "https://x/ok" "https://x/cancel")]) ∧
    ("Failed to create billing agreement token: " ++
      "Cannot read properties of undefined (reading find)") ≠
    ("Failed to create billing agreement token: " ++
      "Approval URL not found") :=
  ⟨rfl, by decide⟩

/-- Claim C4 (amended): on a 2xx agreement-token response, (a) if `links`
is an array containing an entry whose `rel` equals `approval_url` (after a
prefix of non-matching entries), the `href` of that entry is returned; (b) if
`links` is an array with no matching entry — in particular the empty
array — the call fails with the wrapped `Approval URL not found` message;
(c) if the body has no `links` field at all, the unguarded
`data.links.find` raises a TypeError whose wrapped message surfaces
instead of `Approval URL not found`. -/
theorem C4_approval_url_scan (c : Config) (a : AuthInstance)
    (ret can sd : String) (authNet : HttpOutcome)
    (l1 l2 : List JsValue) (fs gs : List (String × JsValue)) (hrefv : JsValue) :
    ((∀ x ∈ l1, relIsApprovalUrl x = .ok false) →
     fs.lookup "rel" = some (.str "approval_url") →
     fs.lookup "href" = some hrefv →
     createBillingAgreementToken ⟨some c, some a⟩ ret can sd authNet
         (HttpOutcome.response 200 (.obj [("links", .arr (l1 ++ .obj fs :: l2))])) =
       (.ok hrefv, ⟨some c, some a⟩,
        [instancePost a "/v1/billing-agreements/agreement-tokens"
          (agreementTokenPayload sd ret can)])) ∧
    ((∀ x ∈ l1, relIsApprovalUrl x = .ok false) →
     createBillingAgreementToken ⟨some c, some a⟩ ret can sd authNet
         (HttpOutcome.response 200 (.obj [("links", .arr l1)])) =
       (.error ("Failed to create billing agreement token: " ++
          "Approval URL not found"),
        ⟨some c, some a⟩,
        [instancePost a "/v1/billing-agreements/agreement-tokens"
          (agreementTokenPayload sd ret can)])) ∧
    (gs.lookup "links" = none →
     createBillingAgreementToken ⟨some c, some a⟩ ret can sd authNet
         (HttpOutcome.response 200 (.obj gs)) =
       (.error ("Failed to create billing agreement token: " ++
          "Cannot read properties of undefined (reading find)"),
        ⟨some c, some a⟩,
        [instancePost a "/v1/billing-agreements/agreement-tokens"
          (agreementTokenPayload sd ret can)])) := by
  refine ⟨fun h1 hrel href => ?_, fun h1 => ?_, fun hgs => ?_⟩
  · have hfind : findRelApprovalUrl (l1 ++ .obj fs :: l2) = .ok (.obj fs) :=
      findRelApprovalUrl_first_match l1 _ l2 h1 (by simp [relIsApprovalUrl, hrel])
    simp [createBillingAgreementToken, getAuthInstance, axiosResult_200,
      JsValue.get, findApprovalLink, hfind, JsValue.truthy, href]
  · have hfind : findRelApprovalUrl l1 = .ok .undefined :=
      findRelApprovalUrl_no_match l1 h1
    simp [createBillingAgreementToken, getAuthInstance, axiosResult_200,
      JsValue.get, findApprovalLink, hfind, JsValue.truthy]
  · simp [createBillingAgreementToken, getAuthInstance, axiosResult_200,
      JsValue.get, hgs, findApprovalLink]

/-- Witness for C4 (amended): a one-element links array whose entry matches,
the empty links array, and a body without links. -/
theorem C4_approval_url_scan_witness :
    (createBillingAgreementToken ⟨some sampleConfig, some sampleAuth⟩
         "https://x/ok" "https://x/cancel" "2026-01-01T00:00:00Z"
         (HttpOutcome.transportError "unused")
         (HttpOutcome.response 200 (.obj [("links", .arr
           ([] ++ .obj [("rel", .str "approval_url"),
                        ("href", .str "https://approve.example/abc")] :: []))])) =
       (.ok (.str "https://approve.example/abc"),
        ⟨some sampleConfig, some sampleAuth⟩,
        [instancePost sampleAuth "/v1/billing-agreements/agreement-tokens"
          (agreementTokenPayload "2026-01-01T00:00:00Z"
            "https://x/ok" "https://x/cancel")])) ∧
    (createBillingAgreementToken ⟨some sampleConfig, some sampleAuth⟩
         "https://x/ok" "https://x/cancel" "2026-01-01T00:00:00Z"
         (HttpOutcome.transportError "unused")
         (HttpOutcome.response 200 (.obj [("links", .arr [])])) =
       (.error ("Failed to create billing agreement token: " ++
          "Approval URL not found"),
        ⟨some sampleConfig, some sampleAuth⟩,
        [instancePost sampleAuth "/v1/billing-agreements/agreement-tokens"
          (agreementTokenPayload "2026-01-01T00:00:00Z"
            "https://x/ok" "https://x/cancel")])) ∧
    (createBillingAgreementToken ⟨some sampleConfig, some sampleAuth⟩
         "https://x/ok" "https://x/cancel" "2026-01-01T00:00:00Z"
         (HttpOutcome.transportError "unused")
         (HttpOutcome.response 200 (.obj [("name", .str "x")])) =
       (.error ("Failed to create billing agreement token: " ++
          "Cannot read properties of undefined (reading find)"),
        ⟨some sampleConfig, some sampleAuth⟩,
        [instancePost sampleAuth "/v1/billing-agreements/agreement-tokens"
          (agreementTokenPayload "2026-01-01T00:00:00Z"
            "https://x/ok" "https://x/cancel")])) := by
  have h := C4_approval_url_scan sampleConfig sampleAuth
    "https://x/ok" "https://x/cancel" "2026-01-01T00:00:00Z"
    (HttpOutcome.transportError "unused") []
    [] [("rel", .str "approval_url"), ("href", .str "https://approve.example/abc")]
    [("name", .str "x")] (.str "https://approve.example/abc")
  exact ⟨h.1 (by simp) rfl rfl, h.2.1 (by simp), h.2.2 rfl⟩

/-- Claim C5: on a 2xx agreement-execution response, (a) a body without an
`id` field fails with the wrapped `Billing Agreement ID not found`
message; (b) a body carrying a truthy `id` and the nested
`payer.payer_info.payer_id` structure yields `{id, payer_id}`. -/
theorem C5_execute_agreement (c : Config) (a : AuthInstance) (token : String)
    (authNet : HttpOutcome) (fs gs ps qs : List (String × JsValue))
    (idv pid : JsValue) :
    (fs.lookup "id" = none →
     executeBillingAgreement ⟨some c, some a⟩ token authNet
         (HttpOutcome.response 200 (.obj fs)) =
       (.error ("Failed to execute billing agreement: " ++
          "Billing Agreement ID not found"),
        ⟨some c, some a⟩,
        [instancePost a "/v1/billing-agreements/agreements"
          (.obj [("token_id", .str token)])])) ∧
    (gs.lookup "id" = some idv → idv.truthy = true →
     gs.lookup "payer" = some (.obj ps) →
     ps.lookup "payer_info" = some (.obj qs) →
     qs.lookup "payer_id" = some pid →
     executeBillingAgreement ⟨some c, some a⟩ token authNet
         (HttpOutcome.response 200 (.obj gs)) =
       (.ok (.obj [("id", idv), ("payer_id", pid)]),
        ⟨some c, some a⟩,
        [instancePost a "/v1/billing-agreements/agreements"
          (.obj [("token_id", .str token)])])) := by
  refine ⟨fun h => ?_, fun hid ht hp hpi hpid => ?_⟩
  · simp [executeBillingAgreement, getAuthInstance, axiosResult_200,
      JsValue.get, h, JsValue.truthy]
  · simp [executeBillingAgreement, getAuthInstance, axiosResult_200,
      JsValue.get, hid, ht, hp, hpi, hpid]

/-- Witness for C5: an empty body versus the mock from the spec,
`{id: AG1, payer: {payer_info: {payer_id: PAYER1}}}`. -/
theorem C5_execute_agreement_witness :
    (executeBillingAgreement ⟨some sampleConfig, some sampleAuth⟩ "T1"
         (HttpOutcome.transportError "unused")
         (HttpOutcome.response 200 (.obj [])) =
       (.error ("Failed to execute billing agreement: " ++
          "Billing Agreement ID not found"),
        ⟨some sampleConfig, some sampleAuth⟩,
        [instancePost sampleAuth "/v1/billing-agreements/agreements"
          (.obj [("token_id", .str "T1")])])) ∧
    (executeBillingAgreement ⟨some sampleConfig, some sampleAuth⟩ "T1"
         (HttpOutcome.transportError "unused")
         (HttpOutcome.response 200 (.obj [("id", .str "AG1"),
           ("payer", .obj [("payer_info", .obj [("payer_id", .str "PAYER1")])])])) =
       (.ok (.obj [("id", .str "AG1"), ("payer_id", .str "PAYER1")]),
        ⟨some sampleConfig, some sampleAuth⟩,
        [instancePost sampleAuth "/v1/billing-agreements/agreements"
          (.obj [("token_id", .str "T1")])])) := by
  have h := C5_execute_agreement sampleConfig sampleAuth "T1"
    (HttpOutcome.transportError "unused") []
    [("id", .str "AG1"),
     ("payer", .obj [("payer_info", .obj [("payer_id", .str "PAYER1")])])]
    [("payer_info", .obj [("payer_id", .str "PAYER1")])]
    [("payer_id", .str "PAYER1")]
    (.str "AG1") (.str "PAYER1")
  exact ⟨h.1 rfl, h.2 rfl rfl rfl rfl rfl⟩

/-- Claim C10: on a 2xx agreement-execution response whose body has a
truthy `id` but no `payer` field, `executeBillingAgreement` does not fail
with `Billing Agreement ID not found` and does not return a partial
result: the unguarded read `data.payer.payer_info` raises a TypeError
whose wrapped message is surfaced to the caller. -/
theorem C10_missing_payer_raises (c : Config) (a : AuthInstance)
    (token : String) (authNet : HttpOutcome) (fs : List (String × JsValue))
    (idv : JsValue)
    (hid : fs.lookup "id" = some idv) (ht : idv.truthy = true)
    (hp : fs.lookup "payer" = none) :
    executeBillingAgreement ⟨some c, some a⟩ token authNet
        (HttpOutcome.response 200 (.obj fs)) =
      (.error ("Failed to execute billing agreement: " ++
         "Cannot read properties of undefined (reading payer_info)"),
       ⟨some c, some a⟩,
       [instancePost a "/v1/billing-agreements/agreements"
         (.obj [("token_id", .str token)])]) ∧
    ("Failed to execute billing agreement: " ++
      "Cannot read properties of undefined (reading payer_info)") ≠
    ("Failed to execute billing agreement: " ++
      "Billing Agreement ID not found") := by
  constructor
  · simp [executeBillingAgreement, getAuthInstance, axiosResult_200,
      JsValue.get, hid, ht, hp]
  · decide

/-- Witness for C10: body `{id: AG1}` with no payer structure. -/
theorem C10_missing_payer_raises_witness :
    executeBillingAgreement ⟨some sampleConfig, some sampleAuth⟩ "T1"
        (HttpOutcome.transportError "unused")
        (HttpOutcome.response 200 (.obj [("id", .str "AG1")])) =
      (.error ("Failed to execute billing agreement: " ++
         "Cannot read properties of undefined (reading payer_info)"),
       ⟨some sampleConfig, some sampleAuth⟩,
       [instancePost sampleAuth "/v1/billing-agreements/agreements"
         (.obj [("token_id", .str "T1")])]) ∧
    ("Failed to execute billing agreement: " ++
      "Cannot read properties of undefined (reading payer_info)") ≠
    ("Failed to execute billing agreement: " ++
      "Billing Agreement ID not found") :=
  C10_missing_payer_raises sampleConfig sampleAuth "T1"
    (HttpOutcome.transportError "unused") [("id", .str "AG1")]
    (.str "AG1") rfl rfl rfl

/-- Claim C6: with a cached session, a 2xx vault-token response whose body
has no `id` field makes `chargeCustomer` fail with the wrapped
`Payment token not returned` message; the request list contains only the
vault call, and in particular no request ever targets the order-creation
endpoint. -/
theorem C6_vault_missing_id (c : Config) (a : AuthInstance)
    (payerId agreementId amount currency : String)
    (authNet orderNet : HttpOutcome) (fs : List (String × JsValue))
    (h : fs.lookup "id" = none) :
    chargeCustomer ⟨some c, some a⟩ payerId agreementId amount currency
        authNet (HttpOutcome.response 200 (.obj fs)) orderNet =
      (.error ("Payment failed: " ++ "Payment token not returned"),
       ⟨some c, some a⟩,
       [instancePost a "/v3/vault/payment-tokens" (vaultPayload agreementId)]) ∧
    (∀ r ∈ (chargeCustomer ⟨some c, some a⟩ payerId agreementId amount currency
        authNet (HttpOutcome.response 200 (.obj fs)) orderNet).2.2,
      r.path ≠ "/v2/checkout/orders") := by
  have heq : chargeCustomer ⟨some c, some a⟩ payerId agreementId amount currency
      authNet (HttpOutcome.response 200 (.obj fs)) orderNet =
      (.error ("Payment failed: " ++ "Payment token not returned"),
       ⟨some c, some a⟩,
       [instancePost a "/v3/vault/payment-tokens" (vaultPayload agreementId)]) := by
    simp [chargeCustomer, getAuthInstance, axiosResult_200,
      JsValue.get, h, JsValue.truthy]
  refine ⟨heq, fun r hr => ?_⟩
  rw [heq] at hr
  rcases List.mem_singleton.mp hr with rfl
  simp [instancePost]

/-- Witness for C6: a vault response with an empty body. -/
theorem C6_vault_missing_id_witness :
    chargeCustomer ⟨some sampleConfig, some sampleAuth⟩ "PAYER1" "AG1"
        "55.00" "USD" (HttpOutcome.transportError "unused")
        (HttpOutcome.response 200 (.obj []))
        (HttpOutcome.transportError "never sent") =
      (.error ("Payment failed: " ++ "Payment token not returned"),
       ⟨some sampleConfig, some sampleAuth⟩,
       [instancePost sampleAuth "/v3/vault/payment-tokens" (vaultPayload "AG1")]) ∧
    (∀ r ∈ (chargeCustomer ⟨some sampleConfig, some sampleAuth⟩ "PAYER1" "AG1"
        "55.00" "USD" (HttpOutcome.transportError "unused")
        (HttpOutcome.response 200 (.obj []))
        (HttpOutcome.transportError "never sent")).2.2,
      r.path ≠ "/v2/checkout/orders") :=
  C6_vault_missing_id sampleConfig sampleAuth "PAYER1" "AG1" "55.00" "USD"
    (HttpOutcome.transportError "unused")
    (HttpOutcome.transportError "never sent") [] rfl

/-- Claim C7: with a cached session and a vault step that returned a truthy
payment-token `id`, (a) a 2xx order response without an `id` field fails
with the wrapped `Order ID not found` message, the request list showing
the vault call already issued before the order call; (b) a 2xx order
response with a truthy `id` is returned to the caller verbatim as the full
order body. -/
theorem C7_order_step (c : Config) (a : AuthInstance)
    (payerId agreementId amount currency : String) (authNet : HttpOutcome)
    (fs gs hs : List (String × JsValue)) (vid oid : JsValue) :
    (fs.lookup "id" = some vid → vid.truthy = true →
     gs.lookup "id" = none →
     chargeCustomer ⟨some c, some a⟩ payerId agreementId amount currency
         authNet (HttpOutcome.response 200 (.obj fs))
         (HttpOutcome.response 200 (.obj gs)) =
       (.error ("Payment failed: " ++ "Order ID not found"),
        ⟨some c, some a⟩,
        [instancePost a "/v3/vault/payment-tokens" (vaultPayload agreementId),
         instancePost a "/v2/checkout/orders"
           (orderPayload currency amount vid)])) ∧
    (fs.lookup "id" = some vid → vid.truthy = true →
     hs.lookup "id" = some oid → oid.truthy = true →
     chargeCustomer ⟨some c, some a⟩ payerId agreementId amount currency
         authNet (HttpOutcome.response 200 (.obj fs))
         (HttpOutcome.response 200 (.obj hs)) =
       (.ok (.obj hs),
        ⟨some c, some a⟩,
        [instancePost a "/v3/vault/payment-tokens" (vaultPayload agreementId),
         instancePost a "/v2/checkout/orders"
           (orderPayload currency amount vid)])) := by
  refine ⟨fun hv ht ho => ?_, fun hv ht ho hot => ?_⟩
  · simp only [chargeCustomer, getAuthInstance, axiosResult_200,
      JsValue.get, hv, ht, ho]
    simp [JsValue.truthy]
    exact ht
  · simp [chargeCustomer, getAuthInstance, axiosResult_200,
      JsValue.get, hv, ht, ho, hot]

/-- Witness for C7: vault mock `{id: TOK1}` against an empty order body
and against the order mock `{id: ORDER1, status: COMPLETED}`. -/
theorem C7_order_step_witness :
    (chargeCustomer ⟨some sampleConfig, some sampleAuth⟩ "PAYER1" "AG1"
         "55.00" "USD" (HttpOutcome.transportError "unused")
         (HttpOutcome.response 200 (.obj [("id", .str "TOK1")]))
         (HttpOutcome.response 200 (.obj [])) =
       (.error ("Payment failed: " ++ "Order ID not found"),
        ⟨some sampleConfig, some sampleAuth⟩,
        [instancePost sampleAuth "/v3/vault/payment-tokens" (vaultPayload "AG1"),
         instancePost sampleAuth "/v2/checkout/orders"
           (orderPayload "USD" "55.00" (.str "TOK1"))])) ∧
    (chargeCustomer ⟨some sampleConfig, some sampleAuth⟩ "PAYER1" "AG1"
         "55.00" "USD" (HttpOutcome.transportError "unused")
         (HttpOutcome.response 200 (.obj [("id", .str "TOK1")]))
         (HttpOutcome.response 200 (.obj [("id", .str "ORDER1"),
           ("status", .str "COMPLETED")])) =
       (.ok (.obj [("id", .str "ORDER1"), ("status", .str "COMPLETED")]),
        ⟨some sampleConfig, some sampleAuth⟩,
        [instancePost sampleAuth "/v3/vault/payment-tokens" (vaultPayload "AG1"),
         instancePost sampleAuth "/v2/checkout/orders"
           (orderPayload "USD" "55.00" (.str "TOK1"))])) := by
  have h := C7_order_step sampleConfig sampleAuth "PAYER1" "AG1" "55.00" "USD"
    (HttpOutcome.transportError "unused")
    [("id", .str "TOK1")] []
    [("id", .str "ORDER1"), ("status", .str "COMPLETED")]
    (.str "TOK1") (.str "ORDER1")
  exact ⟨h.1 rfl rfl rfl, h.2 rfl rfl rfl rfl⟩

/-- Claim C8: two `chargeCustomer` calls that differ only in the `payerId`
argument — same state, same remaining arguments, same network outcomes —
produce identical results, identical final states and identical request
lists: the charge flow never consumes `payerId`. -/
theorem C8_payerId_not_consumed (st : ServiceState)
    (payerId1 payerId2 agreementId amount currency : String)
    (authNet vaultNet orderNet : HttpOutcome) :
    chargeCustomer st payerId1 agreementId amount currency
        authNet vaultNet orderNet =
    chargeCustomer st payerId2 agreementId amount currency
        authNet vaultNet orderNet := rfl

/-- Claim C9: in an unconfigured state, every operation other than
`configure` fails with the `NotConfigured` message (wrapped with the
operation context by the non-auth operations) and issues no HTTP request
at all. -/
theorem C9_not_configured (st : ServiceState) (h : st.config = none)
    (ret can sd token payerId agreementId amount currency : String)
    (n1 n2 n3 : HttpOutcome) :
    getAuthInstance st n1 = (.error notConfiguredMessage, st, []) ∧
    createBillingAgreementToken st ret can sd n1 n2 =
      (.error ("Failed to create billing agreement token: " ++
         notConfiguredMessage), st, []) ∧
    executeBillingAgreement st token n1 n2 =
      (.error ("Failed to execute billing agreement: " ++
         notConfiguredMessage), st, []) ∧
    chargeCustomer st payerId agreementId amount currency n1 n2 n3 =
      (.error ("Payment failed: " ++ notConfiguredMessage), st, []) := by
  have hga : getAuthInstance st n1 = (.error notConfiguredMessage, st, []) := by
    simp [getAuthInstance, h]
  refine ⟨hga, ?_, ?_, ?_⟩
  · simp [createBillingAgreementToken, hga]
  · simp [executeBillingAgreement, hga]
  · simp [chargeCustomer, hga]

/-- Witness for C9 at the fresh (never configured) state. -/
theorem C9_not_configured_witness :
    getAuthInstance ⟨none, none⟩ (HttpOutcome.transportError "never sent") =
      (.error notConfiguredMessage, ⟨none, none⟩, []) ∧
    createBillingAgreementToken ⟨none, none⟩ "r" "c" "d"
        (HttpOutcome.transportError "never sent")
        (HttpOutcome.transportError "never sent") =
      (.error ("Failed to create billing agreement token: " ++
         notConfiguredMessage), ⟨none, none⟩, []) ∧
    executeBillingAgreement ⟨none, none⟩ "T1"
        (HttpOutcome.transportError "never sent")
        (HttpOutcome.transportError "never sent") =
      (.error ("Failed to execute billing agreement: " ++
         notConfiguredMessage), ⟨none, none⟩, []) ∧
    chargeCustomer ⟨none, none⟩ "P1" "AG1" "55.00" "USD"
        (HttpOutcome.transportError "never sent")
        (HttpOutcome.transportError "never sent")
        (HttpOutcome.transportError "never sent") =
      (.error ("Payment failed: " ++ notConfiguredMessage), ⟨none, none⟩, []) :=
  C9_not_configured ⟨none, none⟩ rfl "r" "c" "d" "T1" "P1" "AG1" "55.00" "USD"
    (HttpOutcome.transportError "never sent")
    (HttpOutcome.transportError "never sent")
    (HttpOutcome.transportError "never sent")

end PayPalAgreements
